import Mathlib

/-!
Verification of the `bevy_spine` asset-loading adapter (`src/assets.rs`).

The repository is a thin adapter between the Bevy engine's asset pipeline and
the `rusty_spine` animation library.  The adapter's own logic — the three
asset loaders, the `SpineLoaderError` tag, and the `SkeletonData` composition
record — is embedded below.  External pieces are modelled as parameters:

* the wrapped library's constructors (`rusty_spine::Atlas::new`) are function
  arguments of the loaders, so every theorem holds for every library behaviour;
* Bevy's `Handle<T>` is an opaque typed id;
* `std::io::Error` and `rusty_spine::SpineError` are type parameters;
* an async `Reader` is modelled by the observable outcome of its
  `read_to_end` call: either the full byte sequence or an I/O error;
* `Arc<T>` is modelled as the value it points to (cloning an `Arc` yields
  the same value);
* a path is modelled by its list of components; `Path::parent` drops the
  last component and is `None` on the empty path (root/prefix subtleties of
  Rust paths are abstracted into the empty component list).
-/

namespace BevySpine

/-- Bevy `Handle<T>`: an opaque typed id into the host asset system. -/
structure Handle (α : Type) where
  id : Nat
deriving DecidableEq

/-- A filesystem path, modelled by its list of components.
`Path::new("")` is `⟨[]⟩`. -/
structure SpinePath where
  components : List String
deriving DecidableEq

/-- Rust `Path::new("")`, the empty path. -/
def SpinePath.empty : SpinePath := ⟨[]⟩

/-- Rust `Path::parent`: `None` on the empty path, otherwise the path without
its final component. -/
def SpinePath.parent (p : SpinePath) : Option SpinePath :=
  match p.components with
  | [] => none
  | xs => some ⟨xs.dropLast⟩

/-- The expression `load_context.path().parent().unwrap_or_else(|| Path::new(""))`
from `AtlasLoader::load` (src/assets.rs lines 49-52). -/
def SpinePath.parentOrEmpty (p : SpinePath) : SpinePath :=
  (p.parent).getD SpinePath.empty

/-- `SpineLoaderError` (src/assets.rs lines 12-18): the tagged error returned
by every loader, parameterised by the external error types
`std::io::Error` and `rusty_spine::SpineError`. -/
inductive SpineLoaderError (IoErr SpErr : Type) where
  | Io : IoErr → SpineLoaderError IoErr SpErr
  | Spine : SpErr → SpineLoaderError IoErr SpErr
deriving DecidableEq

/-- The observable outcome of `reader.read_to_end(&mut bytes).await`: the full
byte sequence on success, or an I/O error. -/
abbrev ReadResult (IoErr : Type) := Except IoErr (List Nat)

/-- The `Atlas` asset (src/assets.rs lines 23-27): wraps the
`rusty_spine::Atlas` (type parameter `SA`) produced by the wrapped library. -/
structure Atlas (SA : Type) where
  atlas : SA
deriving DecidableEq

/-- `AtlasLoader::extensions` (src/assets.rs lines 58-60). -/
def AtlasLoader.extensions : List String := ["atlas"]

/-- `AtlasLoader::load` (src/assets.rs lines 37-56).  `atlasNew` is the
wrapped library's `rusty_spine::Atlas::new`, receiving the bytes and a
directory path; the two `?` operators become the two error branches, each
tagged by the corresponding `#[from]` variant of `SpineLoaderError`. -/
def AtlasLoader.load {IoErr SpErr SA : Type}
    (atlasNew : List Nat → SpinePath → Except SpErr SA)
    (reader : ReadResult IoErr) (loadContextPath : SpinePath) :
    Except (SpineLoaderError IoErr SpErr) (Atlas SA) :=
  match reader with
  | Except.error e => Except.error (SpineLoaderError.Io e)
  | Except.ok bytes =>
    match atlasNew bytes loadContextPath.parentOrEmpty with
    | Except.error e => Except.error (SpineLoaderError.Spine e)
    | Except.ok a => Except.ok ⟨a⟩

/-- The `SkeletonJson` asset (src/assets.rs lines 66-70): the raw bytes of a
`.json` skeleton file. -/
structure SkeletonJson where
  json : List Nat
deriving DecidableEq

/-- `SkeletonJsonLoader::extensions` (src/assets.rs lines 95-97). -/
def SkeletonJsonLoader.extensions : List String := ["json"]

/-- `SkeletonJsonLoader::load` (src/assets.rs lines 80-93): reads the bytes
and stores them unmodified (`bytes.to_vec()`); the single `?` operator is the
I/O error branch.  No library function is invoked. -/
def SkeletonJsonLoader.load {IoErr SpErr : Type} (reader : ReadResult IoErr) :
    Except (SpineLoaderError IoErr SpErr) SkeletonJson :=
  match reader with
  | Except.error e => Except.error (SpineLoaderError.Io e)
  | Except.ok bytes => Except.ok ⟨bytes⟩

/-- The `SkeletonBinary` asset (src/assets.rs lines 103-107): the raw bytes of
a `.skel` skeleton file. -/
structure SkeletonBinary where
  binary : List Nat
deriving DecidableEq

/-- `SkeletonBinaryLoader::extensions` (src/assets.rs lines 132-134). -/
def SkeletonBinaryLoader.extensions : List String := ["skel"]

/-- `SkeletonBinaryLoader::load` (src/assets.rs lines 117-130): reads the
bytes and stores them unmodified; the single `?` operator is the I/O error
branch.  No library function is invoked. -/
def SkeletonBinaryLoader.load {IoErr SpErr : Type} (reader : ReadResult IoErr) :
    Except (SpineLoaderError IoErr SpErr) SkeletonBinary :=
  match reader with
  | Except.error e => Except.error (SpineLoaderError.Io e)
  | Except.ok bytes => Except.ok ⟨bytes⟩

/-- `SkeletonDataKind` (src/assets.rs lines 150-154). -/
inductive SkeletonDataKind where
  | BinaryFile : Handle SkeletonBinary → SkeletonDataKind
  | JsonFile : Handle SkeletonJson → SkeletonDataKind
deriving DecidableEq

/-- `SkeletonDataStatus` (src/assets.rs lines 156-161), parameterised by the
composed `rusty_spine::SkeletonData` (the `Arc` is modelled as its value). -/
inductive SkeletonDataStatus (SD : Type) where
  | Loaded : SD → SkeletonDataStatus SD
  | Loading : SkeletonDataStatus SD
  | Failed : SkeletonDataStatus SD
deriving DecidableEq

/-- The `SkeletonData` asset (src/assets.rs lines 141-148).  `SA` is the
wrapped library's atlas type (phantom parameter of the atlas handle); `SD` is
the wrapped library's composed skeleton-data type. -/
structure SkeletonData (SA SD : Type) where
  atlas_handle : Handle (Atlas SA)
  kind : SkeletonDataKind
  status : SkeletonDataStatus SD
  premultiplied_alpha : Bool

/-- `SkeletonData::new_from_json` (src/assets.rs lines 192-199). -/
def SkeletonData.new_from_json {SA SD : Type}
    (json : Handle SkeletonJson) (atlas : Handle (Atlas SA)) :
    SkeletonData SA SD :=
  { atlas_handle := atlas
    kind := SkeletonDataKind.JsonFile json
    status := SkeletonDataStatus.Loading
    premultiplied_alpha := false }

/-- `SkeletonData::new_from_binary` (src/assets.rs lines 229-236). -/
def SkeletonData.new_from_binary {SA SD : Type}
    (binary : Handle SkeletonBinary) (atlas : Handle (Atlas SA)) :
    SkeletonData SA SD :=
  { atlas_handle := atlas
    kind := SkeletonDataKind.BinaryFile binary
    status := SkeletonDataStatus.Loading
    premultiplied_alpha := false }

/-- `SkeletonData::is_loaded` (src/assets.rs lines 238-240):
`matches!(&self.status, SkeletonDataStatus::Loaded(..))`. -/
def SkeletonData.is_loaded {SA SD : Type} (d : SkeletonData SA SD) : Bool :=
  match d.status with
  | SkeletonDataStatus.Loaded _ => true
  | _ => false

/-- `SkeletonData::skeleton_data` (src/assets.rs lines 242-247): a clone of
the `Arc` held by a `Loaded` status, `None` otherwise. -/
def SkeletonData.skeleton_data {SA SD : Type} (d : SkeletonData SA SD) :
    Option SD :=
  match d.status with
  | SkeletonDataStatus.Loaded skeleton_data => some skeleton_data
  | _ => none

/-- C1: the three asset loaders accept exactly the spec'd file extensions:
`AtlasLoader::extensions` is exactly `["atlas"]`, `SkeletonJsonLoader`'s is
exactly `["json"]`, and `SkeletonBinaryLoader`'s is exactly `["skel"]`. -/
theorem loaders_extensions_exact :
    AtlasLoader.extensions = ["atlas"] ∧
    SkeletonJsonLoader.extensions = ["json"] ∧
    SkeletonBinaryLoader.extensions = ["skel"] :=
  ⟨rfl, rfl, rfl⟩

/-- C2: for every input, each of the three loaders either returns the typed
asset or returns a tagged error that is exactly one of the two kinds `Io`
(the I/O failure from reading the source file) or `Spine` (the wrapped
library's error); no other error shape is ever produced. -/
theorem loaders_error_taxonomy {IoErr SpErr SA : Type}
    (atlasNew : List Nat → SpinePath → Except SpErr SA)
    (reader : ReadResult IoErr) (p : SpinePath) :
    ((∃ a, AtlasLoader.load atlasNew reader p = Except.ok a) ∨
      (∃ e, AtlasLoader.load atlasNew reader p
        = Except.error (SpineLoaderError.Io e)) ∨
      (∃ e, AtlasLoader.load atlasNew reader p
        = Except.error (SpineLoaderError.Spine e))) ∧
    ((∃ a, @SkeletonJsonLoader.load IoErr SpErr reader = Except.ok a) ∨
      (∃ e, @SkeletonJsonLoader.load IoErr SpErr reader
        = Except.error (SpineLoaderError.Io e)) ∨
      (∃ e, @SkeletonJsonLoader.load IoErr SpErr reader
        = Except.error (SpineLoaderError.Spine e))) ∧
    ((∃ a, @SkeletonBinaryLoader.load IoErr SpErr reader = Except.ok a) ∨
      (∃ e, @SkeletonBinaryLoader.load IoErr SpErr reader
        = Except.error (SpineLoaderError.Io e)) ∨
      (∃ e, @SkeletonBinaryLoader.load IoErr SpErr reader
        = Except.error (SpineLoaderError.Spine e))) := by
  refine ⟨?_, ?_, ?_⟩
  · cases reader with
    | error e => exact Or.inr (Or.inl ⟨e, rfl⟩)
    | ok bytes =>
      cases ha : atlasNew bytes p.parentOrEmpty with
      | error e =>
        exact Or.inr (Or.inr ⟨e, by simp only [AtlasLoader.load, ha]⟩)
      | ok a => exact Or.inl ⟨⟨a⟩, by simp only [AtlasLoader.load, ha]⟩
  · cases reader with
    | error e => exact Or.inr (Or.inl ⟨e, rfl⟩)
    | ok bytes => exact Or.inl ⟨⟨bytes⟩, rfl⟩
  · cases reader with
    | error e => exact Or.inr (Or.inl ⟨e, rfl⟩)
    | ok bytes => exact Or.inl ⟨⟨bytes⟩, rfl⟩

/-- C3: for every byte sequence successfully read, `SkeletonJsonLoader::load`
returns a `SkeletonJson` whose `json` field equals exactly those bytes, and
`SkeletonBinaryLoader::load` returns a `SkeletonBinary` whose `binary` field
equals exactly those bytes. -/
theorem skeleton_loaders_forward_bytes {IoErr SpErr : Type}
    (bytes : List Nat) :
    @SkeletonJsonLoader.load IoErr SpErr (Except.ok bytes)
      = Except.ok ⟨bytes⟩ ∧
    @SkeletonBinaryLoader.load IoErr SpErr (Except.ok bytes)
      = Except.ok ⟨bytes⟩ :=
  ⟨rfl, rfl⟩

/-- C4 counterexample: `SkeletonJsonLoader::load` and
`SkeletonBinaryLoader::load` never invoke the wrapped library, so even on
bytes any library would reject (here `[1, 2, 3]`) both return the byte asset,
not the `Spine` error variant the claim requires. -/
theorem skeleton_loaders_no_spine_counterexample :
    @SkeletonJsonLoader.load Nat Nat (Except.ok [1, 2, 3])
      = Except.ok ⟨[1, 2, 3]⟩ ∧
    @SkeletonBinaryLoader.load Nat Nat (Except.ok [1, 2, 3])
      = Except.ok ⟨[1, 2, 3]⟩ :=
  ⟨rfl, rfl⟩

/-- C4 amended: `AtlasLoader::load` surfaces the wrapped library's
parse/validation failure as the `Spine` variant when the library rejects the
loaded bytes, while `SkeletonJsonLoader::load` and
`SkeletonBinaryLoader::load` do not invoke the wrapped library during load
and return the byte asset whenever the read succeeds. -/
theorem loaders_spine_error_surfacing {IoErr SpErr SA : Type}
    (atlasNew : List Nat → SpinePath → Except SpErr SA)
    (bytes : List Nat) (p : SpinePath) (e : SpErr)
    (h : atlasNew bytes p.parentOrEmpty = Except.error e) :
    @AtlasLoader.load IoErr SpErr SA atlasNew (Except.ok bytes) p
      = Except.error (SpineLoaderError.Spine e) ∧
    @SkeletonJsonLoader.load IoErr SpErr (Except.ok bytes)
      = Except.ok ⟨bytes⟩ ∧
    @SkeletonBinaryLoader.load IoErr SpErr (Except.ok bytes)
      = Except.ok ⟨bytes⟩ := by
  refine ⟨?_, rfl, rfl⟩
  simp only [AtlasLoader.load, h]

/-- C4 amended, witnessed at a concrete always-rejecting library, bytes `[9]`
and load path `a/b`. -/
theorem loaders_spine_error_surfacing_witness :
    @AtlasLoader.load Nat Nat Nat (fun _ _ => Except.error 7)
        (Except.ok [9]) ⟨["a", "b"]⟩
      = Except.error (SpineLoaderError.Spine 7) ∧
    @SkeletonJsonLoader.load Nat Nat (Except.ok [9]) = Except.ok ⟨[9]⟩ ∧
    @SkeletonBinaryLoader.load Nat Nat (Except.ok [9]) = Except.ok ⟨[9]⟩ :=
  loaders_spine_error_surfacing (fun _ _ => Except.error 7) [9] ⟨["a", "b"]⟩
    7 rfl

/-- C5: `AtlasLoader::load` passes exactly the read bytes and the parent
directory of the asset's load path to the wrapped library's `Atlas`
constructor and returns whatever result it reports: the constructed atlas
wrapped in the `Atlas` asset on success, the library's error (tagged `Spine`)
on failure. -/
theorem atlasLoader_forwards {IoErr SpErr SA : Type}
    (atlasNew : List Nat → SpinePath → Except SpErr SA)
    (bytes : List Nat) (p : SpinePath) :
    (∀ a, atlasNew bytes p.parentOrEmpty = Except.ok a →
      @AtlasLoader.load IoErr SpErr SA atlasNew (Except.ok bytes) p
        = Except.ok ⟨a⟩) ∧
    (∀ e, atlasNew bytes p.parentOrEmpty = Except.error e →
      @AtlasLoader.load IoErr SpErr SA atlasNew (Except.ok bytes) p
        = Except.error (SpineLoaderError.Spine e)) := by
  constructor
  · intro a h
    simp only [AtlasLoader.load, h]
  · intro e h
    simp only [AtlasLoader.load, h]

/-- C5 witness: a library constructor that records its arguments receives
exactly the bytes `[3, 4]` and the parent directory `dir` of the load path
`dir/file.atlas`, and the loader returns exactly its result. -/
theorem atlasLoader_forwards_witness :
    @AtlasLoader.load Nat Nat (List Nat × SpinePath)
        (fun b d => Except.ok (b, d)) (Except.ok [3, 4])
        ⟨["dir", "file.atlas"]⟩
      = Except.ok ⟨([3, 4], ⟨["dir"]⟩)⟩ :=
  (@atlasLoader_forwards Nat Nat (List Nat × SpinePath)
      (fun b d => Except.ok (b, d)) [3, 4] ⟨["dir", "file.atlas"]⟩).1
    ([3, 4], ⟨["dir"]⟩) rfl

/-- C6: for every pair of handles, a `SkeletonData` newly constructed by
`new_from_json` or `new_from_binary` has status `Loading`, so `is_loaded`
returns `false` and `skeleton_data` returns `none` on it. -/
theorem skeletonData_new_is_loading {SA SD : Type}
    (j : Handle SkeletonJson) (b : Handle SkeletonBinary)
    (a : Handle (Atlas SA)) :
    (@SkeletonData.new_from_json SA SD j a).status
      = SkeletonDataStatus.Loading ∧
    (@SkeletonData.new_from_json SA SD j a).is_loaded = false ∧
    (@SkeletonData.new_from_json SA SD j a).skeleton_data = none ∧
    (@SkeletonData.new_from_binary SA SD b a).status
      = SkeletonDataStatus.Loading ∧
    (@SkeletonData.new_from_binary SA SD b a).is_loaded = false ∧
    (@SkeletonData.new_from_binary SA SD b a).skeleton_data = none :=
  ⟨rfl, rfl, rfl, rfl, rfl, rfl⟩

/-- C7: for every `SkeletonData` value, `is_loaded` returns `true` iff
`skeleton_data` returns `some`; for a `Loaded` status `skeleton_data` returns
(a clone of) the stored value, and for `Loading` or `Failed` it returns
`none`. -/
theorem skeletonData_loaded_iff {SA SD : Type} (d : SkeletonData SA SD) :
    (d.is_loaded = true ↔ ∃ sd, d.skeleton_data = some sd) ∧
    (∀ sd, d.status = SkeletonDataStatus.Loaded sd →
      d.skeleton_data = some sd) ∧
    (d.status = SkeletonDataStatus.Loading → d.skeleton_data = none) ∧
    (d.status = SkeletonDataStatus.Failed → d.skeleton_data = none) := by
  obtain ⟨ah, k, s, pma⟩ := d
  cases s <;>
    simp [SkeletonData.is_loaded, SkeletonData.skeleton_data]

/-- C7 witness: on a concrete record with status `Loaded 5`, `skeleton_data`
returns `some 5`. -/
theorem skeletonData_loaded_iff_witness :
    (@SkeletonData.mk Nat Nat ⟨0⟩ (SkeletonDataKind.JsonFile ⟨1⟩)
        (SkeletonDataStatus.Loaded 5) false).skeleton_data = some 5 :=
  (skeletonData_loaded_iff
      (@SkeletonData.mk Nat Nat ⟨0⟩ (SkeletonDataKind.JsonFile ⟨1⟩)
        (SkeletonDataStatus.Loaded 5) false)).2.1 5 rfl

/-- C8: `new_from_json` stores the given atlas handle unchanged in
`atlas_handle` and wraps the given json handle in
`SkeletonDataKind.JsonFile`, `new_from_binary` stores the given atlas handle
unchanged and wraps the given binary handle in
`SkeletonDataKind.BinaryFile`, and both set `premultiplied_alpha` to
`false`. -/
theorem skeletonData_new_fields {SA SD : Type}
    (j : Handle SkeletonJson) (b : Handle SkeletonBinary)
    (a : Handle (Atlas SA)) :
    (@SkeletonData.new_from_json SA SD j a).atlas_handle = a ∧
    (@SkeletonData.new_from_json SA SD j a).kind
      = SkeletonDataKind.JsonFile j ∧
    (@SkeletonData.new_from_json SA SD j a).premultiplied_alpha = false ∧
    (@SkeletonData.new_from_binary SA SD b a).atlas_handle = a ∧
    (@SkeletonData.new_from_binary SA SD b a).kind
      = SkeletonDataKind.BinaryFile b ∧
    (@SkeletonData.new_from_binary SA SD b a).premultiplied_alpha = false :=
  ⟨rfl, rfl, rfl, rfl, rfl, rfl⟩

/-- C9: `AtlasLoader::load` is total in its handling of the asset path: when
the load path has no parent directory, the empty path is substituted and
passed to the wrapped library's `Atlas` constructor. -/
theorem atlasLoader_parent_total {IoErr SpErr SA : Type}
    (atlasNew : List Nat → SpinePath → Except SpErr SA)
    (bytes : List Nat) (p : SpinePath) (h : p.parent = none) :
    p.parentOrEmpty = SpinePath.empty ∧
    @AtlasLoader.load IoErr SpErr SA atlasNew (Except.ok bytes) p
      = (match atlasNew bytes SpinePath.empty with
        | Except.ok a => Except.ok ⟨a⟩
        | Except.error e => Except.error (SpineLoaderError.Spine e)) := by
  have hp : p.parentOrEmpty = SpinePath.empty := by
    simp [SpinePath.parentOrEmpty, h]
  refine ⟨hp, ?_⟩
  simp only [AtlasLoader.load, hp]
  cases atlasNew bytes SpinePath.empty <;> rfl

/-- C9 witness: on the empty load path (which has no parent) the library
constructor receives the empty path. -/
theorem atlasLoader_parent_total_witness :
    (SpinePath.mk []).parentOrEmpty = SpinePath.empty ∧
    @AtlasLoader.load Nat Nat (List Nat × SpinePath)
        (fun b d => Except.ok (b, d)) (Except.ok [1]) ⟨[]⟩
      = Except.ok ⟨([1], SpinePath.empty)⟩ :=
  atlasLoader_parent_total (fun b d => Except.ok (b, d)) [1] ⟨[]⟩ rfl

end BevySpine
